import Mathlib

/-!
Shallow embedding of the insight-derivation engine of the
Customer-Experience-Analytics pipeline.

Source files modelled here:
  * `src/scripts/theme_analysis.py` — theme tagging (`assign_themes`) and the
    rating imputation done in `main` (`pd.to_numeric` + `fillna(median)`).
  * `src/scripts/generate_insights.py` — `analyze_theme_sentiment`,
    `identify_drivers`, `identify_pain_points`, `compare_banks`,
    `generate_recommendations`.

Modelling conventions:
  * A pandas DataFrame row becomes a `Review` record; a missing cell (NaN)
    becomes `none`.
  * Python floats are modelled as exact rationals (`ℚ`).  Python's `round`
    (banker's rounding) becomes `pyRound1` / `pyRound2`; float comparisons
    against NaN are `false`, which the `Option ℚ` matches below reproduce.
  * `pandas.Series.str.contains(pat, case=False, na=False)` treats `pat` as a
    regex.  The only regex metacharacter occurring in theme strings of this
    pipeline is `|` (the themes column is written `"|".join(...)` by
    `theme_analysis.py`), so the matcher is modelled as a case-insensitive
    alternation of literal substrings, split on `|`.
  * Python's stable `list.sort(key=..., reverse=True)` becomes a stable
    insertion sort, descending on the key, ties keeping input order.
  * Python dicts keyed by bank/theme become association lists in insertion
    order; `d.get(k, default)` becomes `(List.lookup k d).getD default`.
-/

/-- Substring test on character lists: `hasSublist p s` is true when `p`
occurs contiguously inside `s` (models Python's `in` on strings). -/
def hasSublist : List Char → List Char → Bool
  | p, [] => p.isEmpty
  | p, c :: rest => p.isPrefixOf (c :: rest) || hasSublist p rest

/-- Split a character list on a separator character (models `str.split(sep)`
for a one-character separator; `splitChar c []` is `[[]]`, like `"".split`). -/
def splitChar (c : Char) : List Char → List (List Char)
  | [] => [[]]
  | x :: xs =>
    match splitChar c xs with
    | [] => [[]]
    | g :: gs => if x = c then [] :: g :: gs else (x :: g) :: gs

/-- Remove leading and trailing whitespace (models `str.strip()`). -/
def strip (cs : List Char) : List Char :=
  ((cs.dropWhile Char.isWhitespace).reverse.dropWhile Char.isWhitespace).reverse

/-- Decimal digit to character. -/
def digitChar : ℕ → Char
  | 0 => '0' | 1 => '1' | 2 => '2' | 3 => '3' | 4 => '4'
  | 5 => '5' | 6 => '6' | 7 => '7' | 8 => '8' | _ => '9'

/-- Decimal digits of a natural number, most significant first.  The first
argument is recursion fuel; 20 digits cover every value this pipeline can
produce. -/
def natDigitsAux : ℕ → ℕ → List Char
  | 0, _ => []
  | fuel + 1, n =>
    if n < 10 then [digitChar n]
    else natDigitsAux fuel (n / 10) ++ [digitChar (n % 10)]

/-- Decimal string of a natural number. -/
def natToString (n : ℕ) : String := String.mk (natDigitsAux 20 n)

/-- Round to the nearest integer, ties to the even integer (the rounding used
by Python's built-in `round`). -/
def roundHalfEvenZ (x : ℚ) : ℤ :=
  if x - (⌊x⌋ : ℚ) < 1 / 2 then ⌊x⌋
  else if 1 / 2 < x - (⌊x⌋ : ℚ) then ⌊x⌋ + 1
  else if ⌊x⌋ % 2 = 0 then ⌊x⌋ else ⌊x⌋ + 1

/-- Python's `round(x, 1)`. -/
def pyRound1 (x : ℚ) : ℚ := (roundHalfEvenZ (x * 10) : ℚ) / 10

/-- Python's `round(x, 2)`. -/
def pyRound2 (x : ℚ) : ℚ := (roundHalfEvenZ (x * 100) : ℚ) / 100

/-- Decimal rendering of a value produced by `round(x, 1)` as Python's
f-string would print the resulting float: one digit after the point
(`41.7`, `50.0`). -/
def fmtRound1 (v : ℚ) : String :=
  (if roundHalfEvenZ (v * 10) < 0 then "-" else "") ++
    natToString ((roundHalfEvenZ (v * 10)).natAbs / 10) ++ "." ++
    natToString ((roundHalfEvenZ (v * 10)).natAbs % 10)

/-- Decimal rendering of a value produced by `round(x, 2)` as Python's
f-string would print the resulting float: two digits after the point with a
trailing zero dropped (`2.6`, `3.14`, `4.0`). -/
def fmtRound2 (v : ℚ) : String :=
  (if roundHalfEvenZ (v * 100) < 0 then "-" else "") ++
    (if (roundHalfEvenZ (v * 100)).natAbs % 10 = 0 then
      natToString ((roundHalfEvenZ (v * 100)).natAbs / 100) ++ "." ++
        natToString ((roundHalfEvenZ (v * 100)).natAbs / 10 % 10)
    else
      natToString ((roundHalfEvenZ (v * 100)).natAbs / 100) ++ "." ++
        natToString ((roundHalfEvenZ (v * 100)).natAbs / 10 % 10) ++
        natToString ((roundHalfEvenZ (v * 100)).natAbs % 10))

/-- Rendering of an optional rating: `none` models a float NaN, which Python
prints as `nan`. -/
def fmtOptRound2 : Option ℚ → String
  | none => "nan"
  | some v => fmtRound2 v

/-- Stable insertion of `x` into a list sorted descending by `key`; `x` goes
after every element whose key is ≥ its own, as Python's stable
`sort(key=..., reverse=True)` places it. -/
def insertDescQ (key : α → ℚ) (x : α) : List α → List α
  | [] => [x]
  | y :: ys => if key x ≤ key y then y :: insertDescQ key x ys else x :: y :: ys

/-- Stable descending sort by a rational key (models Python's
`list.sort(key=..., reverse=True)`). -/
def sortDescQ (key : α → ℚ) (xs : List α) : List α :=
  xs.foldl (fun acc x => insertDescQ key x acc) []

/-- Stable insertion for natural-number keys. -/
def insertDescN (key : α → ℕ) (x : α) : List α → List α
  | [] => [x]
  | y :: ys => if key x ≤ key y then y :: insertDescN key x ys else x :: y :: ys

/-- Stable descending sort by a natural-number key. -/
def sortDescN (key : α → ℕ) (xs : List α) : List α :=
  xs.foldl (fun acc x => insertDescN key x acc) []

/-- Occurrence counts sorted by descending count (models
`pandas.Series.value_counts()`; the order among equal counts is unspecified
in pandas, first-occurrence order is used here). -/
def value_counts [DecidableEq α] (xs : List α) : List (α × ℕ) :=
  sortDescN (fun p => p.2) ((xs.eraseDups).map (fun x => (x, xs.count x)))

/-- Comparison `c ≤ x` on an optional float; `none` models NaN, for which
every Python comparison returns False. -/
def optGe (x : Option ℚ) (c : ℚ) : Bool :=
  match x with
  | none => false
  | some a => decide (c ≤ a)

/-- Comparison `x < c` on an optional float; `none` models NaN, for which
every Python comparison returns False. -/
def optLt (x : Option ℚ) (c : ℚ) : Bool :=
  match x with
  | none => false
  | some a => decide (a < c)

/-- Theme tagger keyword test, from `assign_themes` in
`src/scripts/theme_analysis.py`: a keyword containing a space matches as a
substring of the space-joined token text, and any keyword matches by exact
membership in the token set. -/
def kw_matches (tokens : List String) (joined : String) (kw : String) : Bool :=
  (kw.data.contains ' ' && hasSublist kw.data joined.data) || tokens.contains kw

/-- Theme tagger, from `assign_themes` in `src/scripts/theme_analysis.py`:
a theme is assigned when any of its keywords matches; when nothing matches
the sentinel `"General Feedback"` is assigned. -/
def assign_themes (tokens : List String) (theme_rules : List (String × List String)) :
    List String :=
  let joined := String.intercalate " " tokens
  let matched := theme_rules.filterMap (fun rule =>
    if rule.2.any (kw_matches tokens joined) then some rule.1 else none)
  if matched.isEmpty then ["General Feedback"] else matched

/-- One row of the themed-review table read by
`src/scripts/generate_insights.py` (the CSV written by
`src/scripts/theme_analysis.py`).  `none` models a missing cell (NaN). -/
structure Review where
  bank : String
  rating : Option ℚ
  review : String
  sentiment_label : Option String
  themes : Option String
deriving DecidableEq

/-- Per-(bank, theme) sentiment statistics, the inner dictionaries built by
`analyze_theme_sentiment` in `src/scripts/generate_insights.py`.
`avg_rating = none` models the NaN mean of an all-missing rating column. -/
structure ThemeStat where
  total_reviews : ℕ
  positive_count : ℕ
  negative_count : ℕ
  positive_pct : ℚ
  negative_pct : ℚ
  avg_rating : Option ℚ
  sample_positive : List String
  sample_negative : List String
deriving DecidableEq

/-- Percentage formula `(count / total * 100) if total > 0 else 0` used
throughout `src/scripts/generate_insights.py`. -/
def pct (count total : ℕ) : ℚ :=
  if 0 < total then ((count : ℚ) / total) * 100 else 0

/-- Mean of the rating column (models `pandas.Series.mean()`: missing values
are skipped, and the mean of an all-missing column is NaN, i.e. `none`). -/
def ratings_mean (rs : List Review) : Option ℚ :=
  let vals := rs.filterMap (fun r => r.rating)
  if vals.length = 0 then none else some (vals.sum / (vals.length : ℚ))

/-- Statistics dictionary built for one theme's review set in
`analyze_theme_sentiment` (`src/scripts/generate_insights.py` lines 69–86). -/
def theme_stat (rs : List Review) : ThemeStat :=
  let pos := rs.filter (fun r => r.sentiment_label == some "positive")
  let neg := rs.filter (fun r => r.sentiment_label == some "negative")
  { total_reviews := rs.length
    positive_count := pos.length
    negative_count := neg.length
    positive_pct := pct pos.length rs.length
    negative_pct := pct neg.length rs.length
    avg_rating := (ratings_mean rs).map pyRound2
    sample_positive := (pos.map (fun r => r.review)).take 2
    sample_negative := (neg.map (fun r => r.review)).take 2 }

/-- Theme enumeration step of `analyze_theme_sentiment`: the themes cell is
split on `","` and each piece stripped
(`[t.strip() for t in str(themes_str).split(',')]`). -/
def split_themes (s : String) : List String :=
  (splitChar ',' s.data).map (fun cs => String.mk (strip cs))

/-- Case-insensitive containment used by
`bank_df['themes'].str.contains(theme, case=False, na=False)`.  pandas treats
`theme` as a regex; the only regex metacharacter occurring in this pipeline's
theme strings is `|`, so the pattern is an alternation of literal pieces. -/
def str_contains_ci (pat target : String) : Bool :=
  ((splitChar '|' pat.data).map (List.map Char.toLower)).any
    (fun p => hasSublist p (target.data.map Char.toLower))

/-- Row filter for one theme (`na=False`: a missing themes cell never
matches). -/
def theme_filter (theme : String) (r : Review) : Bool :=
  match r.themes with
  | none => false
  | some t => str_contains_ci theme t

/-- Bank names in order of first appearance (models
`df['bank'].unique()`). -/
def unique_banks (df : List Review) : List String :=
  (df.map (fun r => r.bank)).eraseDups

/-- Theme-sentiment aggregator `analyze_theme_sentiment` from
`src/scripts/generate_insights.py`: for each bank, enumerate the comma-split
themes of its rows (a set in Python — only membership matters; first-seen
order is used here) and build a statistics entry for each theme matching at
least one row. -/
def analyze_theme_sentiment (df : List Review) :
    List (String × List (String × ThemeStat)) :=
  (unique_banks df).map (fun bank =>
    let bank_df := df.filter (fun r => r.bank == bank)
    let all_themes := ((bank_df.filterMap (fun r => r.themes)).map split_themes).flatten.eraseDups
    (bank, all_themes.filterMap (fun theme =>
      let theme_reviews := bank_df.filter (theme_filter theme)
      if 0 < theme_reviews.length then some (theme, theme_stat theme_reviews)
      else none)))

/-- Driver list entry built by `identify_drivers`
(`src/scripts/generate_insights.py`). -/
structure DriverRec where
  theme : String
  positive_pct : ℚ
  avg_rating : Option ℚ
  review_count : ℕ
  evidence : List String
deriving DecidableEq

/-- Pain-point list entry built by `identify_pain_points`
(`src/scripts/generate_insights.py`). -/
structure PainRec where
  theme : String
  negative_pct : ℚ
  avg_rating : Option ℚ
  review_count : ℕ
  evidence : List String
deriving DecidableEq

/-- Driver predicate of `identify_drivers`
(`src/scripts/generate_insights.py` lines 109–111):
`positive_pct >= 60 and avg_rating >= 4.0 and total_reviews >= 20`. -/
def is_driver (s : ThemeStat) : Bool :=
  decide (60 ≤ s.positive_pct) && optGe s.avg_rating 4 && decide (20 ≤ s.total_reviews)

/-- Pain-point predicate of `identify_pain_points`
(`src/scripts/generate_insights.py` lines 144–146):
`negative_pct >= 30 and avg_rating < 3.0 and total_reviews >= 10`. -/
def is_pain_point (s : ThemeStat) : Bool :=
  decide (30 ≤ s.negative_pct) && optLt s.avg_rating 3 && decide (10 ≤ s.total_reviews)

/-- `identify_drivers` from `src/scripts/generate_insights.py`: qualifying
themes per bank, sorted descending by (rounded) positive percentage, top 5. -/
def identify_drivers (df : List Review)
    (theme_sentiment : List (String × List (String × ThemeStat))) :
    List (String × List DriverRec) :=
  (unique_banks df).map (fun bank =>
    let bank_themes := (List.lookup bank theme_sentiment).getD []
    let bank_drivers := bank_themes.filterMap (fun p =>
      if is_driver p.2 then
        some { theme := p.1
               positive_pct := pyRound1 p.2.positive_pct
               avg_rating := p.2.avg_rating
               review_count := p.2.total_reviews
               evidence := p.2.sample_positive.take 2 : DriverRec }
      else none)
    (bank, (sortDescQ (fun d => d.positive_pct) bank_drivers).take 5))

/-- `identify_pain_points` from `src/scripts/generate_insights.py`:
qualifying themes per bank, sorted descending by (rounded) negative
percentage, top 5. -/
def identify_pain_points (df : List Review)
    (theme_sentiment : List (String × List (String × ThemeStat))) :
    List (String × List PainRec) :=
  (unique_banks df).map (fun bank =>
    let bank_themes := (List.lookup bank theme_sentiment).getD []
    let bank_pain_points := bank_themes.filterMap (fun p =>
      if is_pain_point p.2 then
        some { theme := p.1
               negative_pct := pyRound1 p.2.negative_pct
               avg_rating := p.2.avg_rating
               review_count := p.2.total_reviews
               evidence := p.2.sample_negative.take 2 : PainRec }
      else none)
    (bank, (sortDescQ (fun d => d.negative_pct) bank_pain_points).take 5))

/-- Per-bank summary built by `compare_banks`
(`src/scripts/generate_insights.py`). -/
structure ComparisonRec where
  total_reviews : ℕ
  avg_rating : Option ℚ
  positive_pct : ℚ
  negative_pct : ℚ
  rating_distribution : List (ℤ × ℕ)
  top_themes : List (String × ℕ)
deriving DecidableEq

/-- Python's `int()` on a float: truncation toward zero (Lean's `Int`
division also truncates toward zero). -/
def ratTrunc (q : ℚ) : ℤ := q.num / (q.den : ℤ)

/-- `compare_banks` from `src/scripts/generate_insights.py`: per-bank review
count, mean rating, sentiment percentages, rating histogram and the top-5
comma-split theme strings by raw mention count. -/
def compare_banks (df : List Review) : List (String × ComparisonRec) :=
  (unique_banks df).map (fun bank =>
    let bank_df := df.filter (fun r => r.bank == bank)
    let total := bank_df.length
    let all_themes := ((bank_df.filterMap (fun r => r.themes)).map split_themes).flatten
    (bank,
      { total_reviews := total
        avg_rating := (ratings_mean bank_df).map pyRound2
        positive_pct := pyRound1 (pct
          (bank_df.filter (fun r => r.sentiment_label == some "positive")).length total)
        negative_pct := pyRound1 (pct
          (bank_df.filter (fun r => r.sentiment_label == some "negative")).length total)
        rating_distribution :=
          (value_counts (bank_df.filterMap (fun r => r.rating))).map
            (fun p => (ratTrunc p.1, p.2))
        top_themes := (value_counts all_themes).take 5 }))

/-- Recommendation record built by `generate_recommendations`
(`src/scripts/generate_insights.py`).  The Python dicts carry no `'theme'`
key; the `theme` field (always `none` here) models that absent key, read by
`r.get('theme', '')` as `(r.theme).getD ""`. -/
structure Recommendation where
  priority : String
  category : String
  recommendation : String
  rationale : String
  actions : List String
  theme : Option String := none
deriving DecidableEq

/-- Pain-point-derived recommendation template dispatch
(`src/scripts/generate_insights.py` lines 217–298): exact theme-name match
against five known themes, generic fallback otherwise; only the rationale is
parameterized. -/
def pain_point_rec (p : PainRec) : Recommendation :=
  if p.theme = "Performance & Reliability" then
    { priority := "HIGH", category := "Technical"
      recommendation := "Improve app stability and performance"
      rationale := fmtRound1 p.negative_pct ++ "% of reviews mention " ++ p.theme ++
        " issues with avg rating " ++ fmtOptRound2 p.avg_rating
      actions := ["Conduct comprehensive performance testing",
        "Optimize app startup time and response speed",
        "Fix reported crashes and freezing issues",
        "Implement better error handling and recovery"] }
  else if p.theme = "Access & Login" then
    { priority := "HIGH", category := "Security & UX"
      recommendation := "Streamline login and authentication process"
      rationale := fmtRound1 p.negative_pct ++ "% of reviews mention " ++ p.theme ++ " issues"
      actions := ["Simplify login flow (reduce steps)",
        "Improve biometric authentication reliability",
        "Fix OTP delivery issues",
        "Add \x22Remember me\x22 option for trusted devices"] }
  else if p.theme = "Transactions & Payments" then
    { priority := "HIGH", category := "Core Functionality"
      recommendation := "Enhance transaction reliability and user experience"
      rationale := fmtRound1 p.negative_pct ++ "% of reviews mention " ++ p.theme ++ " issues"
      actions := ["Improve transaction success rate",
        "Add transaction status notifications",
        "Simplify payment flow",
        "Add transaction history search and filters"] }
  else if p.theme = "Customer Support" then
    { priority := "MEDIUM", category := "Service"
      recommendation := "Enhance customer support channels"
      rationale := fmtRound1 p.negative_pct ++ "% of reviews mention " ++ p.theme ++ " issues"
      actions := ["Add in-app chat support",
        "Reduce response time",
        "Improve support agent training",
        "Add FAQ section within app"] }
  else if p.theme = "User Experience" then
    { priority := "MEDIUM", category := "Design"
      recommendation := "Improve app interface and navigation"
      rationale := fmtRound1 p.negative_pct ++ "% of reviews mention " ++ p.theme ++ " issues"
      actions := ["Redesign navigation for better intuitiveness",
        "Improve visual design consistency",
        "Add user customization options",
        "Conduct UX research and user testing"] }
  else
    { priority := "MEDIUM", category := "General"
      recommendation := "Address " ++ p.theme ++ " concerns"
      rationale := fmtRound1 p.negative_pct ++ "% of reviews mention " ++ p.theme ++ " issues"
      actions := ["Analyze specific complaints in detail",
        "Prioritize most common issues",
        "Develop targeted solutions"] }

/-- Competitive-gap recommendation appended in
`generate_recommendations` (`src/scripts/generate_insights.py` lines
309–319). -/
def competitive_rec (other_bank : String) (d : DriverRec) : Recommendation :=
  { priority := "MEDIUM", category := "Competitive"
    recommendation := "Learn from " ++ other_bank ++ ": Improve " ++ d.theme
    rationale := other_bank ++ " has " ++ fmtRound1 d.positive_pct ++
      "% positive sentiment for " ++ d.theme
    actions := ["Study " ++ other_bank ++ "\x27s approach to " ++ d.theme,
      "Adapt best practices to your app",
      "Conduct user research on this aspect"] }

/-- Gap test `other_rating > bank_avg_rating + 0.3`
(`src/scripts/generate_insights.py` line 305); any comparison against NaN
(`none`) is False. -/
def gap_gt (other_rating bank_avg_rating : Option ℚ) : Bool :=
  match other_rating, bank_avg_rating with
  | some o, some b => decide (b + 3 / 10 < o)
  | _, _ => false

/-- `generate_recommendations` from `src/scripts/generate_insights.py`: per
bank, up to three pain-point-derived recommendations, then for every other
bank whose mean rating exceeds this bank's by more than 0.3 the top-2 driver
themes are appended as Competitive entries — unless the theme occurs in
`[r.get('theme', '') for r in bank_recs]` (always a list of empty strings,
since no recommendation dict carries a `'theme'` key) — and the combined
list is truncated to 5. -/
def generate_recommendations (drivers : List (String × List DriverRec))
    (pain_points : List (String × List PainRec))
    (comparison : List (String × ComparisonRec)) :
    List (String × List Recommendation) :=
  comparison.map (fun bc =>
    let step1 := (((List.lookup bc.1 pain_points).getD []).take 3).map pain_point_rec
    let bank_recs := comparison.foldl (fun acc oc =>
      if (oc.1 != bc.1) && gap_gt oc.2.avg_rating bc.2.avg_rating then
        (((List.lookup oc.1 drivers).getD []).take 2).foldl (fun acc2 d =>
          if (acc2.map (fun r => r.theme.getD "")).contains d.theme then acc2
          else acc2 ++ [competitive_rec oc.1 d]) acc
      else acc) step1
    (bc.1, bank_recs.take 5))

/-- Ascending stable insertion, for the median computation. -/
def insertAscQ (x : ℚ) : List ℚ → List ℚ
  | [] => [x]
  | y :: ys => if y ≤ x then y :: insertAscQ x ys else x :: y :: ys

/-- Ascending stable sort of rationals. -/
def sortAscQ (xs : List ℚ) : List ℚ :=
  xs.foldl (fun acc x => insertAscQ x acc) []

/-- Median of the present values (models `pandas.Series.median()`: missing
values are skipped; the median of an all-missing column is NaN, i.e.
`none`). -/
def median (xs : List ℚ) : Option ℚ :=
  let ys := sortAscQ xs
  let n := ys.length
  if n = 0 then none
  else if n % 2 = 1 then some (ys.getD (n / 2) 0)
  else some ((ys.getD (n / 2 - 1) 0 + ys.getD (n / 2) 0) / 2)

/-- Rating imputation from `main` in `src/scripts/theme_analysis.py` (lines
212–213): `df["rating"] = df["rating"].fillna(df["rating"].median())` after
numeric coercion — a missing rating is replaced by the column median, not
dropped. -/
def fillna_median (ratings : List (Option ℚ)) : List (Option ℚ) :=
  let m := median (ratings.filterMap id)
  ratings.map (fun r =>
    match r with
    | some x => some x
    | none => m)

/-- Boundary driver statistics: positive_pct exactly 60, avg_rating exactly
4.0, total exactly 20. -/
def c1_boundary_pass : ThemeStat :=
  { total_reviews := 20, positive_count := 12, negative_count := 4
    positive_pct := 60, negative_pct := 20, avg_rating := some 4
    sample_positive := [], sample_negative := [] }

/-- Same statistics with total 19. -/
def c1_boundary_fail : ThemeStat :=
  { total_reviews := 19, positive_count := 12, negative_count := 4
    positive_pct := 60, negative_pct := 20, avg_rating := some 4
    sample_positive := [], sample_negative := [] }

/-- C1: a ThemeStat is classified as a driver iff positive_pct ≥ 60,
avg_rating ≥ 4.0 and total_reviews ≥ 20, all bounds inclusive; in particular
the boundary stat (60 / 4.0 / 20) qualifies and the same stat with total 19
does not. -/
theorem c1_driver_threshold_inclusive :
    (∀ (s : ThemeStat) (a : ℚ), s.avg_rating = some a →
      (is_driver s = true ↔ (60 ≤ s.positive_pct ∧ 4 ≤ a ∧ 20 ≤ s.total_reviews))) ∧
    is_driver c1_boundary_pass = true ∧ is_driver c1_boundary_fail = false := by
  refine ⟨fun s a h => ?_, ?_, ?_⟩
  · simp [is_driver, optGe, h, and_assoc]
  · simp [is_driver, optGe, c1_boundary_pass]
  · simp [is_driver, optGe, c1_boundary_fail]

/-- C1 witness: the iff applied at the concrete boundary stat. -/
theorem c1_driver_threshold_inclusive_witness : is_driver c1_boundary_pass = true :=
  (c1_driver_threshold_inclusive.1 c1_boundary_pass 4 rfl).mpr
    (by refine ⟨by norm_num [c1_boundary_pass], by norm_num, by norm_num [c1_boundary_pass]⟩)

/-- C5: no ThemeStat satisfies the driver predicate and the pain-point
predicate at once — the avg_rating bounds (≥ 4.0 and < 3.0) are
incompatible. -/
theorem c5_driver_pain_point_disjoint :
    ∀ s : ThemeStat, (is_driver s && is_pain_point s) = false := by
  intro s
  cases h : s.avg_rating with
  | none => simp [is_driver, is_pain_point, optGe, optLt, h]
  | some a =>
    by_cases h4 : (4 : ℚ) ≤ a
    · have h3 : ¬a < 3 := by linarith
      simp [is_pain_point, optLt, h, h3]
    · simp [is_driver, optGe, h, h4]

/-- A review row never counts as both positive- and negative-labeled, so the
two filtered sub-lists together are no longer than the list itself. -/
theorem pos_neg_filter_length_le (rs : List Review) :
    (rs.filter (fun r => r.sentiment_label == some "positive")).length +
      (rs.filter (fun r => r.sentiment_label == some "negative")).length ≤ rs.length := by
  induction rs with
  | nil => simp
  | cons r t ih =>
    by_cases hp : r.sentiment_label = some "positive"
    · have hn : r.sentiment_label ≠ some "negative" := by simp [hp]
      simp only [List.filter_cons]
      simp [hp, hn]
      omega
    · by_cases hn : r.sentiment_label = some "negative"
      · simp only [List.filter_cons]
        simp [hp, hn]
        omega
      · simp only [List.filter_cons]
        simp [hp, hn]
        omega

/-- The percentage formula stays within [0, 100] whenever the count is at
most the total. -/
theorem pct_mem_Icc (count total : ℕ) (h : count ≤ total) :
    0 ≤ pct count total ∧ pct count total ≤ 100 := by
  unfold pct
  by_cases ht : 0 < total
  · have htq : (0 : ℚ) < (total : ℚ) := by exact_mod_cast ht
    have hcq : (count : ℚ) ≤ (total : ℚ) := by exact_mod_cast h
    have hdiv : (count : ℚ) / (total : ℚ) ≤ 1 := by
      rw [div_le_one htq]; exact hcq
    have hdiv0 : (0 : ℚ) ≤ (count : ℚ) / (total : ℚ) := by positivity
    constructor
    · simp [ht]; positivity
    · simp [ht]; nlinarith
  · simp [ht]

/-- Counting and percentage bounds for the statistics of one theme's review
list. -/
theorem theme_stat_bounds (rs : List Review) :
    (theme_stat rs).positive_count + (theme_stat rs).negative_count ≤
      (theme_stat rs).total_reviews ∧
    (0 ≤ (theme_stat rs).positive_pct ∧ (theme_stat rs).positive_pct ≤ 100) ∧
    (0 ≤ (theme_stat rs).negative_pct ∧ (theme_stat rs).negative_pct ≤ 100) := by
  refine ⟨?_, ?_, ?_⟩
  · simpa [theme_stat] using pos_neg_filter_length_le rs
  · exact pct_mem_Icc _ _ (List.length_filter_le _ _)
  · exact pct_mem_Icc _ _ (List.length_filter_le _ _)

/-- C8: every ThemeStat produced by the aggregator — whatever sentiment
labels the input rows carry — satisfies positive_count + negative_count ≤
total_reviews, and both percentages lie in [0, 100]. -/
theorem c8_theme_stat_invariants :
    ∀ (df : List Review) (bp : String × List (String × ThemeStat))
      (tp : String × ThemeStat),
      bp ∈ analyze_theme_sentiment df → tp ∈ bp.2 →
      tp.2.positive_count + tp.2.negative_count ≤ tp.2.total_reviews ∧
      (0 ≤ tp.2.positive_pct ∧ tp.2.positive_pct ≤ 100) ∧
      (0 ≤ tp.2.negative_pct ∧ tp.2.negative_pct ≤ 100) := by
  intro df bp tp hbp htp
  simp only [analyze_theme_sentiment, List.mem_map] at hbp
  obtain ⟨bank, _, hbank⟩ := hbp
  subst hbank
  simp only [List.mem_filterMap] at htp
  obtain ⟨theme, _, hsome⟩ := htp
  by_cases hlen : 0 < ((df.filter (fun r => r.bank == bank)).filter (theme_filter theme)).length
  · rw [if_pos hlen] at hsome
    obtain rfl := Option.some_injective _ hsome
    exact theme_stat_bounds _
  · rw [if_neg hlen] at hsome
    exact absurd hsome (by simp)

/-- Input with a single positively-labeled review, for the C8 witness. -/
def c8_df : List Review :=
  [{ bank := "A", rating := some 5, review := "good",
     sentiment_label := some "positive", themes := some "General Feedback" }]

/-- C8 witness: the invariant instantiated on the aggregator output for a
concrete one-review input. -/
theorem c8_theme_stat_invariants_witness :
    (theme_stat c8_df).positive_count + (theme_stat c8_df).negative_count ≤
      (theme_stat c8_df).total_reviews ∧
    (0 ≤ (theme_stat c8_df).positive_pct ∧ (theme_stat c8_df).positive_pct ≤ 100) ∧
    (0 ≤ (theme_stat c8_df).negative_pct ∧ (theme_stat c8_df).negative_pct ≤ 100) :=
  c8_theme_stat_invariants c8_df
    ("A", [("General Feedback", theme_stat c8_df)])
    ("General Feedback", theme_stat c8_df)
    (List.Mem.head _) (List.Mem.head _)

/-- Membership in the matched-theme list of `assign_themes`. -/
theorem assign_themes_matched_mem (tokens : List String)
    (rules : List (String × List String)) (theme : String) :
    (theme ∈ rules.filterMap (fun rule =>
        if rule.2.any (kw_matches tokens (String.intercalate " " tokens)) then some rule.1
        else none)) ↔
      ∃ kws, (theme, kws) ∈ rules ∧
        kws.any (kw_matches tokens (String.intercalate " " tokens)) = true := by
  rw [List.mem_filterMap]
  constructor
  · rintro ⟨rule, hr, hsome⟩
    by_cases hany : rule.2.any (kw_matches tokens (String.intercalate " " tokens)) = true
    · rw [if_pos hany] at hsome
      obtain rfl := Option.some_injective _ hsome
      exact ⟨rule.2, hr, hany⟩
    · rw [if_neg hany] at hsome
      exact absurd hsome (by simp)
  · rintro ⟨kws, hr, hany⟩
    exact ⟨(theme, kws), hr, by rw [if_pos hany]⟩

/-- The matched-theme list of `assign_themes` is empty exactly when no
theme's keyword list matches. -/
theorem assign_themes_matched_empty (tokens : List String)
    (rules : List (String × List String)) :
    (rules.filterMap (fun rule =>
        if rule.2.any (kw_matches tokens (String.intercalate " " tokens)) then some rule.1
        else none) = []) ↔
      rules.all (fun rule =>
        !rule.2.any (kw_matches tokens (String.intercalate " " tokens))) = true := by
  rw [List.filterMap_eq_nil_iff, List.all_eq_true]
  constructor
  · intro h rule hr
    have := h rule hr
    by_cases hany : rule.2.any (kw_matches tokens (String.intercalate " " tokens)) = true
    · rw [if_pos hany] at this
      exact absurd this (by simp)
    · simp [hany]
  · intro h rule hr
    have := h rule hr
    simp only [Bool.not_eq_true'] at this
    rw [this]
    simp

/-- C7: the assigned theme set is never empty; a theme is assigned exactly
when one of its keywords matches (a space-containing keyword as a substring
of the joined text, any keyword by token-set membership), and when no
theme's keyword matches, the result is exactly `["General Feedback"]`. -/
theorem c7_assign_themes_sentinel :
    ∀ (tokens : List String) (rules : List (String × List String)),
      assign_themes tokens rules ≠ [] ∧
      (rules.all (fun rule =>
          !rule.2.any (kw_matches tokens (String.intercalate " " tokens))) = true →
        assign_themes tokens rules = ["General Feedback"]) ∧
      (∀ theme, theme ∈ assign_themes tokens rules ↔
        ((∃ kws, (theme, kws) ∈ rules ∧
            kws.any (kw_matches tokens (String.intercalate " " tokens)) = true) ∨
         (theme = "General Feedback" ∧
          rules.all (fun rule =>
            !rule.2.any (kw_matches tokens (String.intercalate " " tokens))) = true))) := by
  intro tokens rules
  unfold assign_themes
  simp only
  by_cases hempty : rules.filterMap (fun rule =>
      if rule.2.any (kw_matches tokens (String.intercalate " " tokens)) then some rule.1
      else none) = []
  · have hall := (assign_themes_matched_empty tokens rules).mp hempty
    rw [hempty]
    refine ⟨by simp, fun _ => by simp, fun theme => ?_⟩
    simp only [List.isEmpty_nil, if_true, List.mem_singleton]
    constructor
    · intro h
      exact Or.inr ⟨h, hall⟩
    · rintro (⟨kws, hr, hany⟩ | ⟨h, _⟩)
      · exact absurd ((assign_themes_matched_mem tokens rules theme).mpr ⟨kws, hr, hany⟩)
          (by rw [hempty]; simp)
      · exact h
  · have hne : (rules.filterMap (fun rule =>
        if rule.2.any (kw_matches tokens (String.intercalate " " tokens)) then some rule.1
        else none)).isEmpty = false := by
      rw [List.isEmpty_eq_false_iff_exists_mem]
      exact List.exists_mem_of_ne_nil _ hempty
    rw [hne]
    simp only [Bool.false_eq_true, if_false]
    refine ⟨hempty, fun hall => ?_, fun theme => ?_⟩
    · exact absurd ((assign_themes_matched_empty tokens rules).mpr hall) hempty
    · rw [assign_themes_matched_mem tokens rules theme]
      constructor
      · exact Or.inl
      · rintro (h | ⟨_, hall⟩)
        · exact h
        · exact absurd ((assign_themes_matched_empty tokens rules).mpr hall) hempty

/-- C7 witness: with tokens matching no rule, the tagger yields exactly the
sentinel theme. -/
theorem c7_assign_themes_sentinel_witness :
    assign_themes ["hello"] [("Access & Login", ["login"])] = ["General Feedback"] :=
  (c7_assign_themes_sentinel ["hello"] [("Access & Login", ["login"])]).2.1 (by decide)

/-- A recommendation list that is a block of non-Competitive entries followed
by a block of Competitive entries. -/
def comp_split (l : List Recommendation) : Prop :=
  ∃ xs ys, l = xs ++ ys ∧ (∀ r ∈ xs, r.category ≠ "Competitive") ∧
    (∀ r ∈ ys, r.category = "Competitive")

/-- Pain-point-derived recommendations never use the Competitive category
(their categories come from the fixed template table). -/
theorem pain_point_rec_not_competitive (p : PainRec) :
    (pain_point_rec p).category ≠ "Competitive" := by
  unfold pain_point_rec
  split_ifs <;> simp

/-- Appending one competitive entry preserves the split shape. -/
theorem comp_split_append_competitive {l : List Recommendation} (h : comp_split l)
    (ob : String) (d : DriverRec) : comp_split (l ++ [competitive_rec ob d]) := by
  obtain ⟨xs, ys, rfl, h1, h2⟩ := h
  refine ⟨xs, ys ++ [competitive_rec ob d], by rw [List.append_assoc], h1, ?_⟩
  intro r hr
  rcases List.mem_append.mp hr with h | h
  · exact h2 r h
  · rw [List.mem_singleton.mp h]
    rfl

/-- The inner competitor-driver fold of `generate_recommendations` preserves
the split shape. -/
theorem comp_split_inner_fold (ob : String) (ds : List DriverRec) :
    ∀ acc : List Recommendation, comp_split acc →
      comp_split (ds.foldl (fun acc2 d =>
        if (acc2.map (fun r => r.theme.getD "")).contains d.theme then acc2
        else acc2 ++ [competitive_rec ob d]) acc) := by
  induction ds with
  | nil => exact fun acc h => h
  | cons d ds ih =>
    intro acc h
    rw [List.foldl_cons]
    apply ih
    by_cases hc : (acc.map (fun r => r.theme.getD "")).contains d.theme = true
    · rw [if_pos hc]; exact h
    · rw [if_neg hc]; exact comp_split_append_competitive h ob d

/-- The outer competitor fold of `generate_recommendations` preserves the
split shape. -/
theorem comp_split_outer_fold (drivers : List (String × List DriverRec))
    (bank : String) (bavg : Option ℚ) (cs : List (String × ComparisonRec)) :
    ∀ acc : List Recommendation, comp_split acc →
      comp_split (cs.foldl (fun acc oc =>
        if (oc.1 != bank) && gap_gt oc.2.avg_rating bavg then
          (((List.lookup oc.1 drivers).getD []).take 2).foldl (fun acc2 d =>
            if (acc2.map (fun r => r.theme.getD "")).contains d.theme then acc2
            else acc2 ++ [competitive_rec oc.1 d]) acc
        else acc) acc) := by
  induction cs with
  | nil => exact fun acc h => h
  | cons oc cs ih =>
    intro acc h
    rw [List.foldl_cons]
    apply ih
    by_cases hc : ((oc.1 != bank) && gap_gt oc.2.avg_rating bavg) = true
    · rw [if_pos hc]
      exact comp_split_inner_fold oc.1 _ acc h
    · rw [if_neg hc]; exact h

/-- Truncation preserves the split shape. -/
theorem comp_split_take {l : List Recommendation} (h : comp_split l) (n : ℕ) :
    comp_split (l.take n) := by
  obtain ⟨xs, ys, rfl, h1, h2⟩ := h
  refine ⟨xs.take n, ys.take (n - xs.length), List.take_append_eq_append_take, ?_, ?_⟩
  · exact fun r hr => h1 r (List.mem_of_mem_take hr)
  · exact fun r hr => h2 r (List.mem_of_mem_take hr)

/-- Step-1 reference list: the bank's top-3 pain points, in pain-point rank
order (the order of the pain-point list, which `identify_pain_points` sorts
descending by negative percentage), each mapped through the template table. -/
def step1_recs (pain_points : List (String × List PainRec)) (bank : String) :
    List Recommendation :=
  (((List.lookup bank pain_points).getD []).take 3).map pain_point_rec

/-- Step-2 reference list: for each other bank, in comparison-iteration
(peer) order, whose mean rating beats this bank's by more than 0.3, the
peer's top-2 drivers in driver-list order, as Competitive entries. -/
def step2_recs (drivers : List (String × List DriverRec)) (bank : String)
    (bank_avg : Option ℚ) (comparison : List (String × ComparisonRec)) :
    List Recommendation :=
  comparison.flatMap (fun oc =>
    if (oc.1 != bank) && gap_gt oc.2.avg_rating bank_avg then
      (((List.lookup oc.1 drivers).getD []).take 2).map (competitive_rec oc.1)
    else [])

/-- Pain-point-derived recommendation dicts carry no `'theme'` key. -/
theorem pain_point_rec_theme_none (p : PainRec) : (pain_point_rec p).theme = none := by
  unfold pain_point_rec
  split_ifs <;> rfl

/-- Competitive recommendation dicts carry no `'theme'` key. -/
theorem competitive_rec_theme_none (ob : String) (d : DriverRec) :
    (competitive_rec ob d).theme = none := rfl

/-- The inner driver fold of `generate_recommendations` appends the taken
drivers' Competitive entries in driver-list order: when every accumulated
recommendation lacks a `'theme'` key, the membership test compares each
driver theme against empty strings only, so a non-empty driver theme is
never skipped. -/
theorem competitive_inner_fold_eq (ob : String) (ds : List DriverRec) :
    ∀ acc : List Recommendation, (∀ r ∈ acc, r.theme = none) →
      (∀ d ∈ ds, d.theme ≠ "") →
      ds.foldl (fun acc2 d =>
        if (acc2.map (fun r => r.theme.getD "")).contains d.theme then acc2
        else acc2 ++ [competitive_rec ob d]) acc
      = acc ++ ds.map (competitive_rec ob) := by
  induction ds with
  | nil => intro acc _ _; simp
  | cons d ds ih =>
    intro acc hacc hds
    rw [List.foldl_cons]
    have hnotin : d.theme ∉ acc.map (fun r => r.theme.getD "") := by
      intro hmem
      obtain ⟨r, hr, him⟩ := List.mem_map.mp hmem
      rw [hacc r hr] at him
      exact hds d (List.mem_cons_self d ds) him.symm
    have hcond : (acc.map (fun r => r.theme.getD "")).contains d.theme = false := by
      simp [hnotin]
    rw [hcond]
    simp only [Bool.false_eq_true, if_false]
    rw [ih (acc ++ [competitive_rec ob d]) ?_ (fun x hx => hds x (List.mem_cons_of_mem d hx))]
    · rw [List.append_assoc]
      simp
    · intro r hr
      rcases List.mem_append.mp hr with h | h
      · exact hacc r h
      · rw [List.mem_singleton.mp h]
        exact competitive_rec_theme_none ob d

/-- The outer peer fold of `generate_recommendations` appends exactly the
Step-2 reference list, in peer then driver order, after the accumulated
Step-1 entries. -/
theorem competitive_outer_fold_eq (drivers : List (String × List DriverRec))
    (bank : String) (bavg : Option ℚ)
    (hdr : ∀ p ∈ drivers, ∀ d ∈ p.2, d.theme ≠ "") :
    ∀ (cs : List (String × ComparisonRec)) (acc : List Recommendation),
      (∀ r ∈ acc, r.theme = none) →
      cs.foldl (fun acc oc =>
        if (oc.1 != bank) && gap_gt oc.2.avg_rating bavg then
          (((List.lookup oc.1 drivers).getD []).take 2).foldl (fun acc2 d =>
            if (acc2.map (fun r => r.theme.getD "")).contains d.theme then acc2
            else acc2 ++ [competitive_rec oc.1 d]) acc
        else acc) acc
      = acc ++ cs.flatMap (fun oc =>
          if (oc.1 != bank) && gap_gt oc.2.avg_rating bavg then
            (((List.lookup oc.1 drivers).getD []).take 2).map (competitive_rec oc.1)
          else []) := by
  intro cs
  induction cs with
  | nil => intro acc _; simp
  | cons oc cs ih =>
    intro acc hacc
    rw [List.foldl_cons, List.flatMap_cons]
    by_cases hc : ((oc.1 != bank) && gap_gt oc.2.avg_rating bavg) = true
    · rw [if_pos hc, if_pos hc]
      have hthemes : ∀ d ∈ ((List.lookup oc.1 drivers).getD []).take 2, d.theme ≠ "" := by
        intro d hd
        have hd2 := List.mem_of_mem_take hd
        cases hlk : List.lookup oc.1 drivers with
        | none => rw [hlk] at hd2; simp at hd2
        | some ds =>
          rw [hlk] at hd2
          simp only [Option.getD_some] at hd2
          obtain ⟨l₁, l₂, heq, _⟩ := List.lookup_eq_some_iff.mp hlk
          exact hdr (oc.1, ds) (by rw [heq]; simp) d hd2
      rw [competitive_inner_fold_eq oc.1 (((List.lookup oc.1 drivers).getD []).take 2)
        acc hacc hthemes]
      rw [ih (acc ++ (((List.lookup oc.1 drivers).getD []).take 2).map (competitive_rec oc.1))
        ?_]
      · rw [List.append_assoc]
      · intro r hr
        rcases List.mem_append.mp hr with h | h
        · exact hacc r h
        · obtain ⟨d, _, hd⟩ := List.mem_map.mp h
          rw [← hd]
          exact competitive_rec_theme_none oc.1 d
    · rw [if_neg hc, if_neg hc]
      rw [ih acc hacc]
      simp

/-- C4: every per-entity recommendation list has at most 5 entries and every
pain-point-derived (never Competitive-category) entry precedes every
competitive-gap (Competitive-category) entry; moreover, whenever no driver
theme is the empty string (the only theme value the vacuous membership test
could ever skip), the list is exactly the Step-1 entries in pain-point rank
order followed by the Step-2 entries in peer/driver iteration order,
truncated to 5. -/
theorem c4_recommendation_cap_and_order :
    ∀ (drivers : List (String × List DriverRec))
      (pain_points : List (String × List PainRec))
      (comparison : List (String × ComparisonRec)),
      (∀ entry : String × List Recommendation,
        entry ∈ generate_recommendations drivers pain_points comparison →
        entry.2.length ≤ 5 ∧ comp_split entry.2) ∧
      ((∀ p ∈ drivers, ∀ d ∈ p.2, d.theme ≠ "") →
        generate_recommendations drivers pain_points comparison =
          comparison.map (fun bc =>
            (bc.1, (step1_recs pain_points bc.1 ++
              step2_recs drivers bc.1 bc.2.avg_rating comparison).take 5))) := by
  intro drivers pain_points comparison
  constructor
  · intro entry hmem
    simp only [generate_recommendations, List.mem_map] at hmem
    obtain ⟨bc, _, hbc⟩ := hmem
    subst hbc
    constructor
    · exact List.length_take_le 5 _
    · apply comp_split_take
      apply comp_split_outer_fold
      refine ⟨((List.lookup bc.1 pain_points).getD []).take 3 |>.map pain_point_rec, [],
        by simp, ?_, by simp⟩
      intro r hr
      obtain ⟨p, _, hp⟩ := List.mem_map.mp hr
      rw [← hp]
      exact pain_point_rec_not_competitive p
  · intro hdr
    simp only [generate_recommendations, step1_recs, step2_recs]
    refine List.map_congr_left (fun bc _ => ?_)
    have hacc : ∀ r ∈ (((List.lookup bc.1 pain_points).getD []).take 3).map pain_point_rec,
        r.theme = none := by
      intro r hr
      obtain ⟨p, _, hp⟩ := List.mem_map.mp hr
      rw [← hp]
      exact pain_point_rec_theme_none p
    rw [competitive_outer_fold_eq drivers bc.1 bc.2.avg_rating hdr comparison _ hacc]

/-- Empty comparison record used by concrete inputs. -/
def empty_comparison : ComparisonRec :=
  { total_reviews := 0, avg_rating := none, positive_pct := 0, negative_pct := 0
    rating_distribution := [], top_themes := [] }

/-- Driver map for the C4 witness (a non-empty driver theme). -/
def c4_drivers : List (String × List DriverRec) :=
  [("B", [{ theme := "Transactions & Payments", positive_pct := 75, avg_rating := some 4,
            review_count := 25, evidence := [] }])]

/-- Pain-point map for the C4 witness. -/
def c4_pain_points : List (String × List PainRec) :=
  [("A", [{ theme := "Customer Support", negative_pct := 35, avg_rating := some 2,
            review_count := 12, evidence := [] }])]

/-- Comparison map for the C4 witness: bank B outperforms bank A by 1.0. -/
def c4_comparison : List (String × ComparisonRec) :=
  [("A", { total_reviews := 10, avg_rating := some 3, positive_pct := 50,
           negative_pct := 30, rating_distribution := [], top_themes := [] }),
   ("B", { total_reviews := 20, avg_rating := some 4, positive_pct := 70,
           negative_pct := 10, rating_distribution := [], top_themes := [] })]

/-- C4 witness: the cap-and-split conjunct at a concrete one-bank input, and
the exact Step-1-then-Step-2 decomposition at a concrete two-bank input. -/
theorem c4_recommendation_cap_and_order_witness :
    ((("A", ([] : List Recommendation)) : String × List Recommendation).2.length ≤ 5 ∧
      comp_split (("A", ([] : List Recommendation)) : String × List Recommendation).2) ∧
    generate_recommendations c4_drivers c4_pain_points c4_comparison =
      c4_comparison.map (fun bc =>
        (bc.1, (step1_recs c4_pain_points bc.1 ++
          step2_recs c4_drivers bc.1 bc.2.avg_rating c4_comparison).take 5)) :=
  ⟨(c4_recommendation_cap_and_order [] [] [("A", empty_comparison)]).1 ("A", [])
      (List.Mem.head _),
   (c4_recommendation_cap_and_order c4_drivers c4_pain_points c4_comparison).2 (by decide)⟩

/-- A single review carrying the two themes "Customer Support" and
"User Experience", stored the way `src/scripts/theme_analysis.py` writes the
themes column: joined with `"|"`. -/
def pipe_df : List Review :=
  [{ bank := "X", rating := some 5, review := "nice ui and support",
     sentiment_label := some "positive",
     themes := some "Customer Support|User Experience" }]

/-- C3 counter-evidence: on a review tagged with the two themes
"Customer Support" and "User Experience" (written `"|"`-joined by the
upstream stage), the aggregator — which splits the themes column on `","` —
produces a single statistics entry keyed by the combined string and no entry
for either individual theme, so no ThemeStat with the per-theme membership
counts the claim describes exists. -/
theorem c3_delimiter_mismatch_eval :
    (analyze_theme_sentiment pipe_df).map
        (fun p => (p.1, p.2.map (fun q => (q.1, q.2.total_reviews)))) =
      [("X", [("Customer Support|User Experience", 1)])] := by decide

/-- C9 counter-evidence: for the same review, `compare_banks` counts one
mention of the combined string "Customer Support|User Experience" instead of
one mention each of "Customer Support" and "User Experience". -/
theorem c9_top_themes_delimiter_eval :
    (compare_banks pipe_df).map (fun p => (p.1, p.2.top_themes)) =
      [("X", [("Customer Support|User Experience", 1)])] := by decide

/-- Two reviews of one bank, the second with a missing sentiment label. -/
def c10_df : List Review :=
  [{ bank := "Z", rating := some 5, review := "good",
     sentiment_label := some "positive", themes := some "General Feedback" },
   { bank := "Z", rating := some 1, review := "bad",
     sentiment_label := none, themes := some "General Feedback" }]

/-- C10 counterexample: a record with a missing sentiment label is *not*
excluded from aggregation — the aggregator still counts it in the theme's
total (total 2 here), while counting it in neither the positive nor the
negative tally; had the record been excluded as the claim states, the output
would have carried total 1. -/
theorem c10_missing_label_counted :
    (analyze_theme_sentiment c10_df).map
        (fun p => (p.1, p.2.map (fun q =>
          (q.1, q.2.total_reviews, q.2.positive_count, q.2.negative_count)))) =
      [("Z", [("General Feedback", 2, 1, 0)])] ∧
    (analyze_theme_sentiment c10_df).map
        (fun p => (p.1, p.2.map (fun q =>
          (q.1, q.2.total_reviews, q.2.positive_count, q.2.negative_count)))) ≠
      [("Z", [("General Feedback", 1, 1, 0)])] := by
  refine ⟨by decide, by decide⟩

/-- Insertion grows the sorted list by one element. -/
theorem insertAscQ_length (x : ℚ) (l : List ℚ) :
    (insertAscQ x l).length = l.length + 1 := by
  induction l with
  | nil => rfl
  | cons y ys ih =>
    by_cases h : y ≤ x
    · simp [insertAscQ, h, ih]
    · simp [insertAscQ, h]

/-- Sorting preserves length. -/
theorem sortAscQ_length (xs : List ℚ) : (sortAscQ xs).length = xs.length := by
  suffices h : ∀ acc : List ℚ,
      (xs.foldl (fun acc x => insertAscQ x acc) acc).length = xs.length + acc.length by
    simpa [sortAscQ] using h []
  induction xs with
  | nil => simp
  | cons x t ih =>
    intro acc
    rw [List.foldl_cons, ih, insertAscQ_length]
    simp only [List.length_cons]
    omega

/-- The median of a non-empty value list is an actual value, not NaN. -/
theorem median_isSome {xs : List ℚ} (h : xs ≠ []) : (median xs).isSome = true := by
  unfold median
  have hlen : (sortAscQ xs).length ≠ 0 := by
    rw [sortAscQ_length]
    simpa using h
  simp only
  split_ifs <;> simp_all

/-- C10 as amended: a record with a missing sentiment label is not excluded
from aggregation — appending it to a theme's review list raises the total by
one and changes neither the positive nor the negative count — and a record
with a missing rating is not excluded either: the theme-analysis stage
imputes the column median, leaving no missing rating whenever at least one
rating is present. -/
theorem c10_malformed_records_amended :
    ∀ (rs : List Review) (r : Review) (ratings : List (Option ℚ)),
      r.sentiment_label = none → ratings.filterMap id ≠ [] →
      ((theme_stat (rs ++ [r])).total_reviews = (theme_stat rs).total_reviews + 1 ∧
       (theme_stat (rs ++ [r])).positive_count = (theme_stat rs).positive_count ∧
       (theme_stat (rs ++ [r])).negative_count = (theme_stat rs).negative_count) ∧
      (fillna_median ratings).all (fun x => x.isSome) = true := by
  intro rs r ratings hlabel hne
  refine ⟨⟨?_, ?_, ?_⟩, ?_⟩
  · simp [theme_stat]
  · simp [theme_stat, List.filter_append, hlabel]
  · simp [theme_stat, List.filter_append, hlabel]
  · rw [List.all_eq_true]
    intro x hx
    simp only [fillna_median, List.mem_map] at hx
    obtain ⟨v, _, hv⟩ := hx
    cases v with
    | some q => simp [← hv]
    | none =>
      rw [← hv]
      simpa using median_isSome hne

/-- Review with a missing sentiment label, for the C10 witness. -/
def c10_missing_review : Review :=
  { bank := "Z", rating := some 1, review := "bad",
    sentiment_label := none, themes := some "General Feedback" }

/-- C10 witness: the amended behavior at a concrete input. -/
theorem c10_malformed_records_amended_witness :
    ((theme_stat ([] ++ [c10_missing_review])).total_reviews =
        (theme_stat []).total_reviews + 1 ∧
     (theme_stat ([] ++ [c10_missing_review])).positive_count =
        (theme_stat []).positive_count ∧
     (theme_stat ([] ++ [c10_missing_review])).negative_count =
        (theme_stat []).negative_count) ∧
    (fillna_median [some 2, none]).all (fun x => x.isSome) = true :=
  c10_malformed_records_amended [] c10_missing_review [some 2, none] rfl (by decide)

/-- Comparison map for the C2 scenario: bank A averages 3.0, bank B 3.5. -/
def c2_comparison : List (String × ComparisonRec) :=
  [("A", { total_reviews := 50, avg_rating := some 3, positive_pct := 40,
           negative_pct := 40, rating_distribution := [], top_themes := [] }),
   ("B", { total_reviews := 60, avg_rating := some (7 / 2), positive_pct := 70,
           negative_pct := 10, rating_distribution := [], top_themes := [] })]

/-- Same scenario with the gap exactly 0.3 (B averages 3.3). -/
def c2_comparison_gap_exactly :
    List (String × ComparisonRec) :=
  [("A", { total_reviews := 50, avg_rating := some 3, positive_pct := 40,
           negative_pct := 40, rating_distribution := [], top_themes := [] }),
   ("B", { total_reviews := 60, avg_rating := some (33 / 10), positive_pct := 70,
           negative_pct := 10, rating_distribution := [], top_themes := [] })]

/-- B's top driver theme is "User Experience". -/
def c2_drivers : List (String × List DriverRec) :=
  [("B", [{ theme := "User Experience", positive_pct := 80, avg_rating := some (9 / 2),
            review_count := 30, evidence := [] }])]

/-- A's only pain point is also "User Experience", so A's Step-1
recommendation list already covers that theme. -/
def c2_pain_points : List (String × List PainRec) :=
  [("A", [{ theme := "User Experience", negative_pct := 40, avg_rating := some (5 / 2),
            review_count := 15, evidence := [] }])]

/-- C2 counter-evidence: although "User Experience" is already the theme of
A's Step-1 (pain-point-derived) recommendation, the code still appends the
Competitive entry for it — the membership test reads the `'theme'` key via
`r.get('theme', '')`, which no recommendation dict carries, so it compares
against empty strings and never filters.  The second conjunct confirms the
true part of the claim: with the rating gap exactly 0.3 no Competitive entry
is appended. -/
theorem c2_dedup_check_vacuous :
    (generate_recommendations c2_drivers c2_pain_points c2_comparison).map
        (fun p => (p.1, p.2.map (fun r => (r.category, r.recommendation)))) =
      [("A", [("Design", "Improve app interface and navigation"),
              ("Competitive", "Learn from B: Improve User Experience")]),
       ("B", [])] ∧
    (generate_recommendations c2_drivers c2_pain_points c2_comparison_gap_exactly).map
        (fun p => (p.1, p.2.map (fun r => (r.category, r.recommendation)))) =
      [("A", [("Design", "Improve app interface and navigation")]),
       ("B", [])] := by
  have hgap : gap_gt (some ((7 : ℚ) / 2)) (some 3) = true := by
    simp [gap_gt]
    norm_num
  have hgap2 : gap_gt (some ((33 : ℚ) / 10)) (some 3) = false := by
    simp [gap_gt]
    norm_num
  have hgap3 : gap_gt (some (3 : ℚ)) (some ((7 : ℚ) / 2)) = false := by
    simp [gap_gt]
    norm_num
  have hgap4 : gap_gt (some (3 : ℚ)) (some ((33 : ℚ) / 10)) = false := by
    simp [gap_gt]
    norm_num
  constructor
  · simp [generate_recommendations, c2_comparison, c2_drivers, c2_pain_points,
      hgap, hgap3, pain_point_rec, competitive_rec, List.lookup]
  · simp [generate_recommendations, c2_comparison_gap_exactly, c2_drivers, c2_pain_points,
      hgap2, hgap4, pain_point_rec, competitive_rec, List.lookup]

/-- ThemeStat of the C6 scenario: 12 reviews tagged "Access & Login", 5 of
them negative (negative_pct 5/12·100 ≈ 41.7), average rating 2.6. -/
def c6_stat : ThemeStat :=
  { total_reviews := 12, positive_count := 4, negative_count := 5
    positive_pct := (4 : ℚ) / 12 * 100, negative_pct := (5 : ℚ) / 12 * 100
    avg_rating := some (13 / 5), sample_positive := [], sample_negative := [] }

/-- One review row of bank "Y", supplying the bank list for the
classifier. -/
def c6_df : List Review :=
  [{ bank := "Y", rating := some 3, review := "slow login",
     sentiment_label := some "negative", themes := some "Access & Login" }]

/-- Theme-sentiment map of the C6 scenario. -/
def c6_theme_sentiment : List (String × List (String × ThemeStat)) :=
  [("Y", [("Access & Login", c6_stat)])]

/-- Comparison map of the C6 scenario (one bank, so no competitive step). -/
def c6_comparison : List (String × ComparisonRec) :=
  [("Y", { total_reviews := 12, avg_rating := some (13 / 5), positive_pct := 333 / 10,
           negative_pct := 417 / 10, rating_distribution := [], top_themes := [] })]

/-- C6: the "Access & Login" stat with 12 total, 5 negative and average
rating 2.6 is classified as a pain point, and the synthesizer emits a
HIGH-priority "Streamline login and authentication process" recommendation
whose rationale contains "41.7%". -/
theorem c6_access_login_scenario :
    is_pain_point c6_stat = true ∧
    (generate_recommendations [] (identify_pain_points c6_df c6_theme_sentiment)
          c6_comparison).map
        (fun p => (p.1, p.2.map (fun r => (r.priority, r.recommendation, r.rationale)))) =
      [("Y", [("HIGH", "Streamline login and authentication process",
               "41.7% of reviews mention Access & Login issues")])] ∧
    hasSublist "41.7%".data
      "41.7% of reviews mention Access & Login issues".data = true := by
  have hpain : is_pain_point c6_stat = true := by
    simp [is_pain_point, optLt, c6_stat]
    norm_num
  have hr1 : pyRound1 c6_stat.negative_pct = 417 / 10 := by
    norm_num [pyRound1, roundHalfEvenZ, c6_stat, Int.floor_eq_iff]
  have hz : roundHalfEvenZ ((417 : ℚ) / 10 * 10) = 417 := by
    norm_num [roundHalfEvenZ, Int.floor_eq_iff]
  have hfmt : fmtRound1 ((417 : ℚ) / 10) = "41.7" := by
    unfold fmtRound1
    rw [hz]
    decide
  refine ⟨hpain, ?_, by decide⟩
  simp [identify_pain_points, c6_df, c6_theme_sentiment, unique_banks, List.lookup, hpain,
    generate_recommendations, c6_comparison, sortDescQ, insertDescQ, pain_point_rec,
    hr1, hfmt, gap_gt]
